import Mathlib

/-!
# Verification of Glim's resilience and admission-control core

A shallow embedding, in Lean 4, of the three subsystems of the Glim server
that its specification covers:

* the token-bucket rate limiter (`src/ratelimit.rs`),
* the resilient GitHub client with retry-exhaustion cache and circuit
  breaker (`src/github.rs`),
* the error classification shared by both (`src/errors.rs`).

Rust `u32`/`u8`/`u16` arithmetic is modelled on `Nat` with explicit wrapping
(`% 2^32`) where release-mode Rust would wrap, and with `Nat` subtraction
where the source uses `saturating_sub` or guards the subtraction.  `Instant`
values are modelled as `Nat` nanoseconds; `Instant::duration_since` saturates
at zero exactly as `Nat` subtraction does.  Shared mutable state (the moka
caches, the atomic token counters, the circuit-breaker state machine) is
modelled by explicit state passing: each operation takes the state and the
current time and returns the updated state, which is how the code behaves
when calls are serialized.
-/

namespace Glim

/-! ## Token bucket (`src/ratelimit.rs`, `TokenBucket`) -/

/-- The modulus `2^32` of Rust `u32` arithmetic. -/
def u32Mod : Nat := 4294967296

/-- One second in nanoseconds (`Duration::from_secs(1)`). -/
def nsPerSec : Nat := 1000000000

/-- State of `TokenBucket`: an atomic `u32` token count, the fixed capacity,
the refill rate in tokens per second, and the instant of the last refill
(nanoseconds). -/
structure TokenBucket where
  tokens : Nat
  max_tokens : Nat
  refill_rate : Nat
  last_refill : Nat
  deriving Repr, DecidableEq

namespace TokenBucket

/-- Constructor `TokenBucket::new(max_tokens, refill_rate)`: starts full, with
`last_refill = Instant::now()` (the creation instant `t0`). -/
def new (max_tokens refill_rate t0 : Nat) : TokenBucket :=
  { tokens := max_tokens, max_tokens := max_tokens,
    refill_rate := refill_rate, last_refill := t0 }

/-- Method `TokenBucket::refill` at instant `now`: if at least one whole second has
elapsed since `last_refill`, add `elapsed_seconds * refill_rate` tokens
(u32 arithmetic), capped at `max_tokens`, and advance `last_refill` — but
only when `tokens_to_add > 0`. -/
def refill (b : TokenBucket) (now : Nat) : TokenBucket :=
  let elapsed := now - b.last_refill
  if elapsed ≥ nsPerSec then
    let seconds_passed := (elapsed / nsPerSec) % u32Mod
    let tokens_to_add := (seconds_passed * b.refill_rate) % u32Mod
    if tokens_to_add > 0 then
      { b with
        tokens := min ((b.tokens + tokens_to_add) % u32Mod) b.max_tokens,
        last_refill := now }
    else b
  else b

/-- Method `TokenBucket::try_consume` at instant `now`: refill first, then decrement
the count if it is positive.  Returns whether a token was consumed, together
with the updated bucket.  (The compare-and-retry loop of the source is the
serialized decrement.) -/
def try_consume (b : TokenBucket) (now : Nat) : Bool × TokenBucket :=
  let b := b.refill now
  if b.tokens > 0 then (true, { b with tokens := b.tokens - 1 })
  else (false, b)

/-- An operation applied to a bucket: a `try_consume` or a bare `refill`
(the background task), each at some instant. -/
inductive Op where
  | tryConsume (now : Nat)
  | doRefill (now : Nat)
  deriving Repr, DecidableEq

/-- Apply one operation, discarding the `try_consume` result. -/
def applyOp (b : TokenBucket) : Op → TokenBucket
  | .tryConsume now => (b.try_consume now).2
  | .doRefill now => b.refill now

/-- Apply a finite sequence of operations in order. -/
def applyOps (b : TokenBucket) : List Op → TokenBucket
  | [] => b
  | op :: ops => applyOps (b.applyOp op) ops

end TokenBucket

/-! ## Rate limiter (`src/ratelimit.rs`, `RateLimiter`) -/

/-- Structure `RateLimitConfig`. -/
structure RateLimitConfig where
  global_requests_per_minute : Nat
  per_ip_requests_per_minute : Nat
  ip_memory_duration : Nat
  refill_interval : Nat
  deriving Repr, DecidableEq

/-- Definition `RateLimitConfig::default()`. -/
def RateLimitConfig.default : RateLimitConfig :=
  { global_requests_per_minute := 300, per_ip_requests_per_minute := 30,
    ip_memory_duration := 3600, refill_interval := 1 }

/-- Client identifiers (`IpAddr`), abstracted to strings. -/
def IpAddr : Type := String

instance : DecidableEq IpAddr := fun a b => String.decEq a b

/-- The per-IP bucket map (`moka::future::Cache<IpAddr, Arc<TokenBucket>>`),
modelled as an association list; lookup takes the first binding. -/
def IpBuckets : Type := List (IpAddr × TokenBucket)

instance : DecidableEq IpBuckets :=
  inferInstanceAs (DecidableEq (List (IpAddr × TokenBucket)))

/-- Look up an IP's bucket. -/
def IpBuckets.find (m : IpBuckets) (ip : IpAddr) : Option TokenBucket :=
  match m with
  | [] => none
  | (k, b) :: rest => if k = ip then some b else IpBuckets.find rest ip

/-- Insert or replace an IP's bucket (new binding shadows the old). -/
def IpBuckets.insert (m : IpBuckets) (ip : IpAddr) (b : TokenBucket) : IpBuckets :=
  (ip, b) :: m

/-- State of `RateLimiter`: configuration, the global bucket, and the map of
per-IP buckets. -/
structure RateLimiter where
  config : RateLimitConfig
  global_bucket : TokenBucket
  ip_buckets : IpBuckets
  deriving DecidableEq

/-- Constructor `RateLimiter::new(config)` at creation instant `t0`: a full global bucket
with refill rate `max(1, global/60)` and an empty per-IP map. -/
def RateLimiter.new (config : RateLimitConfig) (t0 : Nat) : RateLimiter :=
  { config := config,
    global_bucket := TokenBucket.new config.global_requests_per_minute
      (max 1 (config.global_requests_per_minute / 60)) t0,
    ip_buckets := [] }

/-- Enumeration `RateLimitResult`. -/
inductive RateLimitResult where
  | Allowed
  | GlobalLimitExceeded
  | IpLimitExceeded
  deriving Repr, DecidableEq

/-- Method `RateLimiter::get_or_create_ip_bucket`: return the existing bucket for
`ip`, or create a fresh one sized to the per-IP configuration (refill rate
`max(1, per_ip/60)`) and insert it. -/
def RateLimiter.get_or_create_ip_bucket (rl : RateLimiter) (ip : IpAddr)
    (now : Nat) : TokenBucket × RateLimiter :=
  match rl.ip_buckets.find ip with
  | some b => (b, rl)
  | none =>
    let b := TokenBucket.new rl.config.per_ip_requests_per_minute
      (max 1 (rl.config.per_ip_requests_per_minute / 60)) now
    (b, { rl with ip_buckets := rl.ip_buckets.insert ip b })

/-- Method `RateLimiter::check_rate_limit`: consume from the global bucket first;
on denial return `GlobalLimitExceeded` without touching the per-IP map.
Otherwise get-or-create the per-IP bucket and consume from it; on denial
return `IpLimitExceeded`, else `Allowed`. -/
def RateLimiter.check_rate_limit (rl : RateLimiter) (ip : IpAddr)
    (now : Nat) : RateLimitResult × RateLimiter :=
  let okG := (rl.global_bucket.try_consume now).1
  let rl1 : RateLimiter :=
    { rl with global_bucket := (rl.global_bucket.try_consume now).2 }
  if !okG then (.GlobalLimitExceeded, rl1)
  else
    let b := (rl1.get_or_create_ip_bucket ip now).1
    let rl2 := (rl1.get_or_create_ip_bucket ip now).2
    let okIp := (b.try_consume now).1
    let rl3 : RateLimiter :=
      { rl2 with ip_buckets := rl2.ip_buckets.insert ip (b.try_consume now).2 }
    if !okIp then (.IpLimitExceeded, rl3)
    else (.Allowed, rl3)

/-! ## GitHub error taxonomy (`src/errors.rs`, `GitHubError`) -/

/-- Enumeration `GitHubError`. -/
inductive GitHubError where
  | NotFound
  | RateLimited
  | ApiError (code : Nat)
  | NetworkError
  | InvalidFormat (msg : String)
  | AuthError (msg : String)
  | CircuitBreakerOpen
  deriving Repr, DecidableEq

/-- Returns `true` exactly on the `AuthError` variant. -/
def GitHubError.isAuthError : GitHubError → Bool
  | .AuthError _ => true
  | _ => false

/-! ## GitHub client (`src/github.rs`) -/

/-- Structure `Repository`, as deserialized from the GitHub API.  The Rust field
`private` is a Lean keyword, hence `is_private`. -/
structure Repository where
  name : String
  description : Option String
  language : Option String
  stargazers_count : Nat
  forks_count : Nat
  is_private : Bool
  deriving Repr, DecidableEq

/-- Enumeration `CacheEntry`: the per-key outcome cache of the GitHub client. -/
inductive CacheEntry where
  | Valid (data : Repository)
  | Invalid (error : GitHubError) (remaining : Nat)
  | InvalidExhausted (error : GitHubError)
  deriving Repr, DecidableEq

/-- Constant `DEFAULT_API_RETRIES`. -/
def DEFAULT_API_RETRIES : Nat := 3

/-- Predicate `GitHubClient::should_trigger_circuit_breaker`: only network errors,
rate limits and 5xx API errors signal the breaker. -/
def should_trigger_circuit_breaker : GitHubError → Bool
  | .NetworkError => true
  | .RateLimited => true
  | .ApiError code => code ≥ 500
  | .NotFound => false
  | .InvalidFormat _ => false
  | .AuthError _ => false
  | .CircuitBreakerOpen => false

/-- The status→error mapping of `GitHubClient::fetch_repository_info` for a
non-success HTTP status (`match status.as_u16()` at `github.rs:282-286`). -/
def classifyStatus (code : Nat) : GitHubError :=
  if code = 404 then .NotFound
  else if code = 403 then .RateLimited
  else .ApiError code

/-- The outcome of the raw HTTP exchange with the GitHub API, the
environment input to `fetch_repository_info`: a transport failure of
`send()`, a success status whose body fails to parse, a success status with
a parsed `Repository`, or a non-success status code. -/
inductive UpstreamResponse where
  | networkFailure
  | parseFailure
  | success (repo : Repository)
  | httpError (code : Nat)
  deriving Repr, DecidableEq

/-- Method `GitHubClient::fetch_repository_info`, given the HTTP outcome: transport
and parse failures become `NetworkError`; a successful response whose
repository is private is turned into `NotFound` ("as if the repository was
not found"); other successes return the repository; non-success statuses are
classified by `classifyStatus`. -/
def fetch_repository_info : UpstreamResponse → Except GitHubError Repository
  | .networkFailure => .error .NetworkError
  | .parseFailure => .error .NetworkError
  | .success repo =>
    if repo.is_private then .error .NotFound else .ok repo
  | .httpError code => .error (classifyStatus code)

/-! ### The repository cache (`moka::future::Cache<String, CacheEntry>`)

Built in `GitHubClient::new` with `time_to_live(Duration::from_secs(30*60))`:
every entry, of every variant, expires 30 minutes after insertion.  Times in
this model are in seconds. -/

/-- The cache TTL: 30 minutes, in seconds (`github.rs:121`). -/
def ghCacheTTL : Nat := 1800

/-- The repository cache: an association list of key, entry and insertion
time; lookup takes the first binding. -/
def GHCache : Type := List (String × CacheEntry × Nat)

instance : DecidableEq GHCache :=
  inferInstanceAs (DecidableEq (List (String × CacheEntry × Nat)))

/-- Raw lookup of the newest binding for a key. -/
def GHCache.findRaw (c : GHCache) (key : String) : Option (CacheEntry × Nat) :=
  match c with
  | [] => none
  | (k, e, t0) :: rest => if k = key then some (e, t0) else GHCache.findRaw rest key

/-- Lookup `cache.get(key)` at instant `now`: the entry, if present and younger
than the 30-minute TTL. -/
def GHCache.get (c : GHCache) (key : String) (now : Nat) : Option CacheEntry :=
  match c.findRaw key with
  | some (e, t0) => if now - t0 < ghCacheTTL then some e else none
  | none => none

/-- Operation `cache.insert(key, entry)` at instant `now` (the new binding shadows any
older one). -/
def GHCache.insert (c : GHCache) (key : String) (e : CacheEntry) (now : Nat) : GHCache :=
  (key, e, now) :: c

/-! ### The circuit breaker

Modelled from the spec: the breaker itself lives in the external `failsafe`
crate; only its configuration is in the source (`GitHubClient::new`,
`github.rs:104-117`).  Per the spec it opens "on either (a) success rate
below a threshold (e.g. 80%) over a trailing time window with a minimum
sample size, or (b) a run of consecutive failures (e.g. 5) — whichever trips
first"; the source configures `success_rate_over_time_window(0.8, 5, 30s)`
or-else `consecutive_failures(5)`.  Recovery backoff (full-jittered,
randomized real time) is outside the scenarios proved here, so an opened
breaker stays open in this model. -/

/-- Circuit breaker state: the run of consecutive recorded failures, the
recorded samples (instant, was-success) for the trailing success-rate
window, and whether the breaker has opened. -/
structure BreakerState where
  consecutive_failures : Nat
  samples : List (Nat × Bool)
  is_open : Bool
  deriving Repr, DecidableEq

/-- A fresh (closed) breaker. -/
def BreakerState.initial : BreakerState :=
  { consecutive_failures := 0, samples := [], is_open := false }

/-- Gate `is_call_permitted`: calls are permitted while the breaker is closed. -/
def BreakerState.is_call_permitted (b : BreakerState) : Bool :=
  !b.is_open

/-- Signal `on_success` at instant `now`: resets the consecutive-failure run and
records a success sample. -/
def BreakerState.on_success (b : BreakerState) (now : Nat) : BreakerState :=
  { b with consecutive_failures := 0, samples := (now, true) :: b.samples }

/-- Signal `on_error` at instant `now`: extends the consecutive-failure run,
records a failure sample, and opens the breaker if either policy trips —
5 consecutive failures, or at least 5 samples in the trailing 30-second
window with a success rate below 0.8. -/
def BreakerState.on_error (b : BreakerState) (now : Nat) : BreakerState :=
  let cf := b.consecutive_failures + 1
  let samples := (now, false) :: b.samples
  let window := samples.filter (fun p => now - p.1 ≤ 30)
  let successes := window.countP (fun p => p.2)
  let rateTripped : Bool := window.length ≥ 5 && 5 * successes < 4 * window.length
  { consecutive_failures := cf, samples := samples,
    is_open := b.is_open || cf ≥ 5 || rateTripped }

/-! ### `get_repository_info` -/

/-- The mutable state of a `GitHubClient`: the repository cache and the
circuit breaker. -/
structure ClientState where
  cache : GHCache
  breaker : BreakerState
  deriving DecidableEq

/-- A fresh client: empty cache, closed breaker (`GitHubClient::new`). -/
def ClientState.initial : ClientState :=
  { cache := [], breaker := BreakerState.initial }

instance : DecidableEq (Except GitHubError Repository) := fun x y =>
  match x, y with
  | .ok a, .ok b =>
    if h : a = b then .isTrue (by rw [h])
    else .isFalse (by intro hc; cases hc; exact h rfl)
  | .error a, .error b =>
    if h : a = b then .isTrue (by rw [h])
    else .isFalse (by intro hc; cases hc; exact h rfl)
  | .ok _, .error _ => .isFalse (by intro hc; cases hc)
  | .error _, .ok _ => .isFalse (by intro hc; cases hc)

/-- The observable outcome of one `get_repository_info` call: the returned
result, whether an upstream HTTP request was performed, and the state the
client is left in. -/
structure CallResult where
  result : Except GitHubError Repository
  upstreamCalled : Bool
  state : ClientState
  deriving DecidableEq

/-- Method `GitHubClient::handle_github_error`: a `NotFound` is immediately stored
as `InvalidExhausted`; any other error decrements the retry budget of an
existing `Invalid` entry (saturating) or initializes it to
`DEFAULT_API_RETRIES`, storing `InvalidExhausted` when the budget reaches
zero.  Returns the updated cache; the call itself always returns the
error. -/
def handle_github_error (cache : GHCache) (key : String) (e : GitHubError)
    (now : Nat) : GHCache :=
  if e = .NotFound then
    cache.insert key (.InvalidExhausted e) now
  else
    let new_count :=
      match cache.get key now with
      | some (.Invalid _ count) => count - 1
      | _ => DEFAULT_API_RETRIES
    let entry :=
      if new_count = 0 then CacheEntry.InvalidExhausted e
      else CacheEntry.Invalid e new_count
    cache.insert key entry now

/-- The cache-miss path of `get_repository_info`: consult the breaker,
perform the upstream call, and on success cache the data and signal the
breaker; on failure signal the breaker only for circuit-triggering errors
and delegate caching to `handle_github_error`. -/
def attemptCall (st : ClientState) (key : String) (resp : UpstreamResponse)
    (now : Nat) : CallResult :=
  if !st.breaker.is_call_permitted then
    { result := .error .CircuitBreakerOpen, upstreamCalled := false, state := st }
  else
    match fetch_repository_info resp with
    | .ok repo =>
      { result := .ok repo, upstreamCalled := true,
        state := { cache := st.cache.insert key (.Valid repo) now,
                   breaker := st.breaker.on_success now } }
    | .error e =>
      let breaker :=
        if should_trigger_circuit_breaker e then st.breaker.on_error now
        else st.breaker
      { result := .error e, upstreamCalled := true,
        state := { cache := handle_github_error st.cache key e now,
                   breaker := breaker } }

/-- Method `GitHubClient::get_repository_info` at instant `now`, with the upstream
HTTP outcome `resp` as the environment: a live `Valid` entry is returned
directly, a live `InvalidExhausted` entry returns its cached error without
an upstream call, and otherwise (a live `Invalid` entry, an expired entry,
or no entry) the call proceeds upstream through the circuit breaker. -/
def get_repository_info (st : ClientState) (key : String)
    (resp : UpstreamResponse) (now : Nat) : CallResult :=
  match st.cache.get key now with
  | some (.Valid data) =>
    { result := .ok data, upstreamCalled := false, state := st }
  | some (.InvalidExhausted e) =>
    { result := .error e, upstreamCalled := false, state := st }
  | some (.Invalid _ _) => attemptCall st key resp now
  | none => attemptCall st key resp now

/-- Run a sequence of calls (key, upstream outcome, instant), returning the
final client state. -/
def runCalls (st : ClientState) : List (String × UpstreamResponse × Nat) → ClientState
  | [] => st
  | (key, resp, now) :: rest =>
    runCalls (get_repository_info st key resp now).state rest

/-! ### Concrete scenarios used by the theorems -/

/-- Scenario of `n` calls for key `"a/b"`, the upstream answering HTTP 500 every time,
one second apart. -/
def fiveHundredRun (n : Nat) : List (String × UpstreamResponse × Nat) :=
  (List.range n).map (fun i => ("a/b", .httpError 500, i))

/-- Five calls on five distinct keys, the upstream failing at the transport
level every time. -/
def netRun : List (String × UpstreamResponse × Nat) :=
  [("k1", .networkFailure, 0), ("k2", .networkFailure, 1),
   ("k3", .networkFailure, 2), ("k4", .networkFailure, 3),
   ("k5", .networkFailure, 4)]

/-- Five calls on five distinct keys, the upstream answering HTTP 400 every
time. -/
def err400Run : List (String × UpstreamResponse × Nat) :=
  [("k1", .httpError 400, 0), ("k2", .httpError 400, 1),
   ("k3", .httpError 400, 2), ("k4", .httpError 400, 3),
   ("k5", .httpError 400, 4)]

/-- A repository marked private, for instantiating the private-repository
theorems. -/
def privRepo : Repository :=
  { name := "secret", description := none, language := none,
    stargazers_count := 0, forks_count := 0, is_private := true }

/-- Every `Valid` entry of the cache holds a non-private repository. -/
def cacheNoPrivate (c : GHCache) : Prop :=
  ∀ k d t0, c.findRaw k = some (.Valid d, t0) → d.is_private = false

/-- A repository not marked private. -/
def pubRepo : Repository :=
  { name := "r", description := none, language := none,
    stargazers_count := 1, forks_count := 0, is_private := false }

/-- A client state holding an `InvalidExhausted` entry inserted at
instant 0. -/
def exhaustedState : ClientState :=
  { cache := [("x/y", .InvalidExhausted .NotFound, 0)],
    breaker := .initial }

/-- A rate-limiter configuration with a zero per-IP budget, for
instantiating the admission theorems. -/
def zeroIpConfig : RateLimitConfig :=
  { global_requests_per_minute := 5, per_ip_requests_per_minute := 0,
    ip_memory_duration := 3600, refill_interval := 1 }

/-- A rate-limiter configuration with a zero global budget. -/
def zeroGlobalConfig : RateLimitConfig :=
  { global_requests_per_minute := 0, per_ip_requests_per_minute := 30,
    ip_memory_duration := 3600, refill_interval := 1 }

/-! ## Supporting lemmas -/

/-- The `refill` step never lifts the count above capacity, and never changes the
capacity. -/
theorem TokenBucket.refill_bound (b : TokenBucket) (now : Nat)
    (h : b.tokens ≤ b.max_tokens) :
    (b.refill now).tokens ≤ (b.refill now).max_tokens ∧
    (b.refill now).max_tokens = b.max_tokens := by
  unfold TokenBucket.refill
  dsimp only
  split
  · split
    · exact ⟨min_le_right _ _, rfl⟩
    · exact ⟨h, rfl⟩
  · exact ⟨h, rfl⟩

/-- A single operation preserves the bucket bound. -/
theorem TokenBucket.applyOp_bound (b : TokenBucket) (op : TokenBucket.Op)
    (h : b.tokens ≤ b.max_tokens) :
    (b.applyOp op).tokens ≤ (b.applyOp op).max_tokens ∧
    (b.applyOp op).max_tokens = b.max_tokens := by
  cases op with
  | tryConsume now =>
    have hr := b.refill_bound now h
    unfold TokenBucket.applyOp TokenBucket.try_consume
    dsimp only
    split
    · exact ⟨Nat.le_trans (Nat.sub_le _ _) hr.1, hr.2⟩
    · exact hr
  | doRefill now => exact b.refill_bound now h

/-- Any operation sequence preserves the bucket bound. -/
theorem TokenBucket.applyOps_bound (ops : List TokenBucket.Op)
    (b : TokenBucket) (h : b.tokens ≤ b.max_tokens) :
    (b.applyOps ops).tokens ≤ (b.applyOps ops).max_tokens ∧
    (b.applyOps ops).max_tokens = b.max_tokens := by
  induction ops generalizing b with
  | nil => exact ⟨h, rfl⟩
  | cons op rest ih =>
    have h1 := b.applyOp_bound op h
    have h2 := ih (b.applyOp op) h1.1
    exact ⟨h2.1, h2.2.trans h1.2⟩

/-- A consuming `try_consume` found a positive refilled count and left the
bucket exactly one token below it. -/
theorem TokenBucket.try_consume_true {b : TokenBucket} {now : Nat}
    (h : (b.try_consume now).1 = true) :
    0 < (b.refill now).tokens ∧
    (b.try_consume now).2.tokens + 1 = (b.refill now).tokens := by
  unfold TokenBucket.try_consume at *
  by_cases h0 : (b.refill now).tokens > 0
  · refine ⟨h0, ?_⟩
    simp only [h0, if_pos]
    exact Nat.succ_pred_eq_of_pos h0
  · simp only [h0, if_neg, if_false] at h
    exact Bool.noConfusion h

/-- The lookup `get_or_create_ip_bucket` never touches the global bucket. -/
theorem RateLimiter.get_or_create_global (rl : RateLimiter) (ip : IpAddr)
    (now : Nat) :
    (rl.get_or_create_ip_bucket ip now).2.global_bucket = rl.global_bucket := by
  unfold RateLimiter.get_or_create_ip_bucket
  split <;> rfl

/-- Two upstream outcomes with the same classification drive
`attemptCall` identically. -/
theorem attemptCall_congr (st : ClientState) (key : String) (now : Nat)
    {r1 r2 : UpstreamResponse}
    (h : fetch_repository_info r1 = fetch_repository_info r2) :
    attemptCall st key r1 now = attemptCall st key r2 now := by
  unfold attemptCall
  rw [h]

/-- A live cache lookup comes from a raw binding. -/
theorem GHCache.get_some_findRaw {c : GHCache} {k : String} {now : Nat}
    {e : CacheEntry} (h : c.get k now = some e) :
    ∃ t0, c.findRaw k = some (e, t0) := by
  unfold GHCache.get at h
  cases hf : c.findRaw k with
  | none => rw [hf] at h; cases h
  | some p =>
    obtain ⟨e1, t0⟩ := p
    rw [hf] at h
    dsimp only at h
    by_cases hl : now - t0 < ghCacheTTL
    · rw [if_pos hl] at h
      cases h
      exact ⟨t0, rfl⟩
    · rw [if_neg hl] at h
      cases h

/-- The error path `handle_github_error` never writes a `Valid` entry: any `Valid` binding
found afterwards was already in the cache. -/
theorem handle_github_error_no_valid {cache : GHCache} {key : String}
    {e : GitHubError} {now : Nat} {k : String} {d : Repository} {t0 : Nat}
    (h : (handle_github_error cache key e now).findRaw k =
      some (.Valid d, t0)) :
    cache.findRaw k = some (.Valid d, t0) := by
  unfold handle_github_error at h
  by_cases h404 : e = .NotFound
  · rw [if_pos h404] at h
    unfold GHCache.insert GHCache.findRaw at h
    by_cases hk : key = k
    · rw [if_pos hk] at h; cases h
    · rw [if_neg hk] at h; exact h
  · rw [if_neg h404] at h
    dsimp only at h
    by_cases hz : (match cache.get key now with
      | some (.Invalid _ count) => count - 1
      | _ => DEFAULT_API_RETRIES) = 0
    · rw [if_pos hz] at h
      unfold GHCache.insert GHCache.findRaw at h
      by_cases hk : key = k
      · rw [if_pos hk] at h; cases h
      · rw [if_neg hk] at h; exact h
    · rw [if_neg hz] at h
      unfold GHCache.insert GHCache.findRaw at h
      by_cases hk : key = k
      · rw [if_pos hk] at h; cases h
      · rw [if_neg hk] at h; exact h

/-! ## Claim theorems -/

/-- C8: for every token bucket created with capacity `max` and every finite
sequence of `try_consume` and `refill` calls at arbitrary instants, the
token count stays within `[0, max]`. -/
theorem c8_token_bucket_bounded (max rate t0 : Nat)
    (ops : List TokenBucket.Op) :
    0 ≤ ((TokenBucket.new max rate t0).applyOps ops).tokens ∧
    ((TokenBucket.new max rate t0).applyOps ops).tokens ≤ max := by
  have h := TokenBucket.applyOps_bound ops (TokenBucket.new max rate t0)
    (Nat.le_refl max)
  exact ⟨Nat.zero_le _, h.1.trans (le_of_eq h.2)⟩

/-- C7: `check_rate_limit` consumes from the global bucket first; when the
global bucket denies, the result is `GlobalLimitExceeded`, the per-IP bucket
map is left exactly as it was (no bucket created or consumed), and the
global bucket holds the result of its own `try_consume`. -/
theorem c7_global_checked_first (rl : RateLimiter) (ip : IpAddr) (now : Nat)
    (h : (rl.global_bucket.try_consume now).1 = false) :
    (rl.check_rate_limit ip now).1 = .GlobalLimitExceeded ∧
    (rl.check_rate_limit ip now).2.ip_buckets = rl.ip_buckets ∧
    (rl.check_rate_limit ip now).2.global_bucket =
      (rl.global_bucket.try_consume now).2 := by
  unfold RateLimiter.check_rate_limit
  simp [h]

/-- Witness for C7: a limiter configured with a zero global budget denies
globally and leaves the per-IP map empty. -/
theorem c7_witness :
    ((RateLimiter.new zeroGlobalConfig 0).global_bucket.try_consume 0).1 = false ∧
    (((RateLimiter.new zeroGlobalConfig 0).check_rate_limit "1.2.3.4" 0).1 =
        .GlobalLimitExceeded ∧
      ((RateLimiter.new zeroGlobalConfig 0).check_rate_limit "1.2.3.4" 0).2.ip_buckets =
        (RateLimiter.new zeroGlobalConfig 0).ip_buckets ∧
      ((RateLimiter.new zeroGlobalConfig 0).check_rate_limit "1.2.3.4" 0).2.global_bucket =
        ((RateLimiter.new zeroGlobalConfig 0).global_bucket.try_consume 0).2) :=
  ⟨by decide, c7_global_checked_first (RateLimiter.new zeroGlobalConfig 0)
    "1.2.3.4" 0 (by decide)⟩

/-- C10: a `check_rate_limit` call that returns `IpLimitExceeded` has
consumed one token from the global bucket and not restored it: the global
bucket in the returned state holds exactly one token fewer than the
refilled global bucket. -/
theorem c10_ip_denied_still_consumes_global (rl : RateLimiter) (ip : IpAddr)
    (now : Nat)
    (h : (rl.check_rate_limit ip now).1 = .IpLimitExceeded) :
    (rl.check_rate_limit ip now).2.global_bucket.tokens + 1 =
      (rl.global_bucket.refill now).tokens := by
  cases hok : (rl.global_bucket.try_consume now).1 with
  | false =>
    exfalso
    unfold RateLimiter.check_rate_limit at h
    simp [hok] at h
  | true =>
    have hc := TokenBucket.try_consume_true hok
    unfold RateLimiter.check_rate_limit
    simp only [hok, Bool.not_true, Bool.false_eq_true, if_false]
    split <;>
      simp [RateLimiter.get_or_create_global, hc.2]

/-- Witness for C10: with a zero per-IP budget and a global budget of 5, the
first check is denied per-IP while the global bucket drops from 5 to 4. -/
theorem c10_witness :
    ((RateLimiter.new zeroIpConfig 0).check_rate_limit "1.2.3.4" 0).1 =
      .IpLimitExceeded ∧
    ((RateLimiter.new zeroIpConfig 0).check_rate_limit "1.2.3.4" 0).2.global_bucket.tokens + 1 =
      ((RateLimiter.new zeroIpConfig 0).global_bucket.refill 0).tokens :=
  ⟨by decide, c10_ip_denied_still_consumes_global (RateLimiter.new zeroIpConfig 0)
    "1.2.3.4" 0 (by decide)⟩

/-- Counterexample to C1: with the upstream answering HTTP 500 on every
attempt, the first `get_repository_info` call leaves a `Invalid` entry with
`remaining = 3` (not 2, since `handle_github_error` stores the full
`DEFAULT_API_RETRIES` budget on a fresh failure), the third call leaves
`remaining = 1` rather than converting the entry to `InvalidExhausted`, and
the fourth call still performs an upstream call. -/
theorem c1_counterexample :
    (runCalls .initial (fiveHundredRun 1)).cache.get "a/b" 0 =
      some (.Invalid (.ApiError 500) 3) ∧
    ¬ (runCalls .initial (fiveHundredRun 1)).cache.get "a/b" 0 =
      some (.Invalid (.ApiError 500) 2) ∧
    (runCalls .initial (fiveHundredRun 3)).cache.get "a/b" 2 =
      some (.Invalid (.ApiError 500) 1) ∧
    (get_repository_info (runCalls .initial (fiveHundredRun 3)) "a/b"
      (.httpError 500) 3).upstreamCalled = true := by
  decide

/-- C1 (amended): starting from an empty cache with the upstream answering
HTTP 500 on every attempt for key `"a/b"`, the first four calls each return
`ApiError 500` and leave the entry at `remaining = 3`, `2`, `1` and then
`InvalidExhausted`; the fifth call returns the same cached error without
performing any upstream call and leaves the state unchanged. -/
theorem c1_amended_retry_exhaustion :
    (get_repository_info .initial "a/b" (.httpError 500) 0).result =
      .error (.ApiError 500) ∧
    (runCalls .initial (fiveHundredRun 1)).cache.get "a/b" 0 =
      some (.Invalid (.ApiError 500) 3) ∧
    (get_repository_info (runCalls .initial (fiveHundredRun 1)) "a/b"
      (.httpError 500) 1).result = .error (.ApiError 500) ∧
    (runCalls .initial (fiveHundredRun 2)).cache.get "a/b" 1 =
      some (.Invalid (.ApiError 500) 2) ∧
    (get_repository_info (runCalls .initial (fiveHundredRun 2)) "a/b"
      (.httpError 500) 2).result = .error (.ApiError 500) ∧
    (runCalls .initial (fiveHundredRun 3)).cache.get "a/b" 2 =
      some (.Invalid (.ApiError 500) 1) ∧
    (get_repository_info (runCalls .initial (fiveHundredRun 3)) "a/b"
      (.httpError 500) 3).result = .error (.ApiError 500) ∧
    (get_repository_info (runCalls .initial (fiveHundredRun 3)) "a/b"
      (.httpError 500) 3).upstreamCalled = true ∧
    (runCalls .initial (fiveHundredRun 4)).cache.get "a/b" 3 =
      some (.InvalidExhausted (.ApiError 500)) ∧
    (get_repository_info (runCalls .initial (fiveHundredRun 4)) "a/b"
      (.httpError 500) 4).result = .error (.ApiError 500) ∧
    (get_repository_info (runCalls .initial (fiveHundredRun 4)) "a/b"
      (.httpError 500) 4).upstreamCalled = false ∧
    (get_repository_info (runCalls .initial (fiveHundredRun 4)) "a/b"
      (.httpError 500) 4).state = runCalls .initial (fiveHundredRun 4) := by
  decide

/-- C5: only `NetworkError`, `RateLimited` and `ApiError` with a 5xx code
are signalled to the circuit breaker; five consecutive `NetworkError`
outcomes open the breaker (calls no longer permitted), while five
consecutive `ApiError 400` outcomes leave it closed. -/
theorem c5_breaker_selectivity :
    (∀ e, should_trigger_circuit_breaker e = true ↔
      (e = .NetworkError ∨ e = .RateLimited ∨
        ∃ code, 500 ≤ code ∧ e = .ApiError code)) ∧
    (runCalls .initial netRun).breaker.is_call_permitted = false ∧
    (runCalls .initial err400Run).breaker.is_call_permitted = true := by
  refine ⟨fun e => ?_, by decide, by decide⟩
  cases e <;> simp [should_trigger_circuit_breaker]

/-- Counterexample to C3: the status classification of
`fetch_repository_info` maps HTTP 401 to `ApiError 401`, never to
`AuthError`. -/
theorem c3_counterexample :
    classifyStatus 401 = .ApiError 401 ∧
    (classifyStatus 401).isAuthError = false := by
  decide

/-- C3 (amended): the error classification for a non-success status maps
404 to `NotFound`, 403 to `RateLimited`, and every other code — 401
included — to `ApiError code`; the 401 result `ApiError 401` does not
trigger the circuit breaker. -/
theorem c3_amended_status_classification :
    (∀ code, code ≠ 404 → code ≠ 403 → classifyStatus code = .ApiError code) ∧
    classifyStatus 404 = .NotFound ∧
    classifyStatus 403 = .RateLimited ∧
    should_trigger_circuit_breaker (classifyStatus 401) = false := by
  refine ⟨fun code h404 h403 => ?_, rfl, rfl, rfl⟩
  unfold classifyStatus
  rw [if_neg h404, if_neg h403]

/-- Witness for C3: instantiating the amended classification at code 401. -/
theorem c3_witness : classifyStatus 401 = .ApiError 401 :=
  c3_amended_status_classification.1 401 (by decide) (by decide)

/-- Counterexample to C2: the claim quantifies over every subsequent call,
but the moka cache applies its 30-minute TTL to `InvalidExhausted` entries
too: after a single 404 at instant 0, a call at instant 10^6 performs a new
upstream request and returns that request's outcome, not the cached
`NotFound`. -/
theorem c2_counterexample :
    (get_repository_info (get_repository_info .initial "x/y" (.httpError 404) 0).state
      "x/y" (.httpError 500) 1000000).upstreamCalled = true ∧
    (get_repository_info (get_repository_info .initial "x/y" (.httpError 404) 0).state
      "x/y" (.httpError 500) 1000000).result = .error (.ApiError 500) := by
  decide

/-- C2 (amended): a single upstream 404 for an uncached key immediately
stores `InvalidExhausted` (no retry budget consumed) and leaves the breaker
untouched, and every subsequent call for the key made while that entry is
live (within the 30-minute TTL) returns the cached `NotFound` without
making an upstream call and without changing the state. -/
theorem c2_amended_404_short_circuit (st : ClientState) (key : String)
    (t t' : Nat) (resp' : UpstreamResponse)
    (hmiss : st.cache.get key t = none)
    (hperm : st.breaker.is_call_permitted = true)
    (hlive : t' - t < ghCacheTTL) :
    (get_repository_info st key (.httpError 404) t).result = .error .NotFound ∧
    (get_repository_info st key (.httpError 404) t).upstreamCalled = true ∧
    (get_repository_info st key (.httpError 404) t).state.cache =
      st.cache.insert key (.InvalidExhausted .NotFound) t ∧
    (get_repository_info st key (.httpError 404) t).state.breaker = st.breaker ∧
    (get_repository_info (get_repository_info st key (.httpError 404) t).state
      key resp' t').result = .error .NotFound ∧
    (get_repository_info (get_repository_info st key (.httpError 404) t).state
      key resp' t').upstreamCalled = false ∧
    (get_repository_info (get_repository_info st key (.httpError 404) t).state
      key resp' t').state = (get_repository_info st key (.httpError 404) t).state := by
  have h1 : get_repository_info st key (.httpError 404) t =
      { result := .error .NotFound, upstreamCalled := true,
        state := { cache := st.cache.insert key (.InvalidExhausted .NotFound) t,
                   breaker := st.breaker } } := by
    simp only [get_repository_info, hmiss]
    simp [attemptCall, hperm, fetch_repository_info, classifyStatus,
      handle_github_error, should_trigger_circuit_breaker]
  have h2 : (st.cache.insert key (.InvalidExhausted .NotFound) t).get key t' =
      some (.InvalidExhausted .NotFound) := by
    unfold GHCache.insert GHCache.get GHCache.findRaw
    simp [hlive]
  rw [h1]
  refine ⟨rfl, rfl, rfl, rfl, ?_, ?_, ?_⟩ <;>
    simp only [get_repository_info, h2]

/-- Witness for C2: instantiated at the fresh client, key `"x/y"`, a first
call at instant 0 and a second at instant 100 whose upstream would answer
HTTP 500. -/
theorem c2_witness :
    ClientState.initial.cache.get "x/y" 0 = none ∧
    ClientState.initial.breaker.is_call_permitted = true ∧
    100 - 0 < ghCacheTTL ∧
    ((get_repository_info .initial "x/y" (.httpError 404) 0).result =
        .error .NotFound ∧
      (get_repository_info .initial "x/y" (.httpError 404) 0).upstreamCalled = true ∧
      (get_repository_info .initial "x/y" (.httpError 404) 0).state.cache =
        ClientState.initial.cache.insert "x/y" (.InvalidExhausted .NotFound) 0 ∧
      (get_repository_info .initial "x/y" (.httpError 404) 0).state.breaker =
        ClientState.initial.breaker ∧
      (get_repository_info (get_repository_info .initial "x/y" (.httpError 404) 0).state
        "x/y" (.httpError 500) 100).result = .error .NotFound ∧
      (get_repository_info (get_repository_info .initial "x/y" (.httpError 404) 0).state
        "x/y" (.httpError 500) 100).upstreamCalled = false ∧
      (get_repository_info (get_repository_info .initial "x/y" (.httpError 404) 0).state
        "x/y" (.httpError 500) 100).state =
        (get_repository_info .initial "x/y" (.httpError 404) 0).state) :=
  ⟨rfl, rfl, by decide,
    c2_amended_404_short_circuit .initial "x/y" 0 100 (.httpError 500)
      rfl rfl (by decide)⟩

/-- Counterexample to C4: an `InvalidExhausted` entry does expire by TTL.
After the 404 at instant 0 stored it, a lookup at instant 1800 finds no
live entry, and the call at instant 1800 performs a fresh upstream request
whose outcome (here HTTP 500) is returned instead of the cached error. -/
theorem c4_counterexample :
    (get_repository_info .initial "x/y" (.httpError 404) 0).state.cache.findRaw "x/y" =
      some (.InvalidExhausted .NotFound, 0) ∧
    (get_repository_info .initial "x/y" (.httpError 404) 0).state.cache.get "x/y" 1800 =
      none ∧
    (get_repository_info (get_repository_info .initial "x/y" (.httpError 404) 0).state
      "x/y" (.httpError 500) 1800).upstreamCalled = true ∧
    (get_repository_info (get_repository_info .initial "x/y" (.httpError 404) 0).state
      "x/y" (.httpError 500) 1800).result = .error (.ApiError 500) := by
  decide

/-- C4 (amended): an `InvalidExhausted` entry behaves like every other
entry under the cache's single 30-minute TTL: while it is live the entry
stays present and `get_repository_info` returns its cached error without an
upstream call and without changing the state; once the TTL has lapsed the
entry is no longer visible. -/
theorem c4_amended_exhausted_ttl (st : ClientState) (key : String)
    (e : GitHubError) (t0 now : Nat) (resp : UpstreamResponse)
    (hfound : st.cache.findRaw key = some (.InvalidExhausted e, t0)) :
    (now - t0 < ghCacheTTL →
      (get_repository_info st key resp now).result = .error e ∧
      (get_repository_info st key resp now).upstreamCalled = false ∧
      (get_repository_info st key resp now).state = st) ∧
    (ghCacheTTL ≤ now - t0 → st.cache.get key now = none) := by
  constructor
  · intro hlt
    have hg : st.cache.get key now = some (.InvalidExhausted e) := by
      unfold GHCache.get
      rw [hfound]
      simp [hlt]
    simp [get_repository_info, hg]
  · intro hge
    unfold GHCache.get
    rw [hfound]
    simp only
    rw [if_neg (by omega)]

/-- Witness for C4: the state holding an `InvalidExhausted NotFound` entry
inserted at instant 0, consulted at instant 5 while an upstream HTTP 500
answer stands ready. -/
theorem c4_witness :
    exhaustedState.cache.findRaw "x/y" =
      some (.InvalidExhausted .NotFound, 0) ∧
    ((get_repository_info exhaustedState "x/y" (.httpError 500) 5).result =
        .error .NotFound ∧
      (get_repository_info exhaustedState "x/y" (.httpError 500) 5).upstreamCalled =
        false ∧
      (get_repository_info exhaustedState "x/y" (.httpError 500) 5).state =
        exhaustedState) :=
  ⟨by decide,
    (c4_amended_exhausted_ttl exhaustedState "x/y" .NotFound 0 5 (.httpError 500)
      (by decide)).1 (by decide)⟩

/-- C6: a successful upstream response whose repository is marked private
is treated exactly as a 404: `fetch_repository_info` never yields a private
repository, `get_repository_info` on such a response is literally equal —
result, upstream-call flag, cache entry and breaker — to the call on an
HTTP 404, a client whose cache holds no private `Valid` entry never returns
a private repository, and that cache property is preserved by every call. -/
theorem c6_private_treated_as_not_found :
    (∀ (resp : UpstreamResponse) (repo : Repository),
      fetch_repository_info resp = .ok repo → repo.is_private = false) ∧
    (∀ (st : ClientState) (key : String) (repo : Repository) (now : Nat),
      repo.is_private = true →
      get_repository_info st key (.success repo) now =
        get_repository_info st key (.httpError 404) now) ∧
    (∀ (st : ClientState) (key : String) (resp : UpstreamResponse) (now : Nat)
      (repo : Repository),
      cacheNoPrivate st.cache →
      (get_repository_info st key resp now).result = .ok repo →
      repo.is_private = false) ∧
    (∀ (st : ClientState) (key : String) (resp : UpstreamResponse) (now : Nat),
      cacheNoPrivate st.cache →
      cacheNoPrivate (get_repository_info st key resp now).state.cache) := by
  have hfetch : ∀ (resp : UpstreamResponse) (repo : Repository),
      fetch_repository_info resp = .ok repo → repo.is_private = false := by
    intro resp repo h
    cases resp with
    | networkFailure => exact Except.noConfusion h
    | parseFailure => exact Except.noConfusion h
    | httpError code => exact Except.noConfusion h
    | success r =>
      simp only [fetch_repository_info] at h
      cases hp : r.is_private with
      | true => simp [hp] at h
      | false =>
        rw [hp] at h
        simp only [Bool.false_eq_true, if_false] at h
        injection h with h'
        rw [← h']
        exact hp
  refine ⟨hfetch, ?_, ?_, ?_⟩
  · intro st key repo now hp
    have hf : fetch_repository_info (.success repo) =
        fetch_repository_info (.httpError 404) := by
      simp [fetch_repository_info, hp, classifyStatus]
    cases hg : st.cache.get key now with
    | none => simp only [get_repository_info, hg]; exact attemptCall_congr st key now hf
    | some e =>
      cases e with
      | Valid data => simp only [get_repository_info, hg]
      | Invalid e1 n =>
        simp only [get_repository_info, hg]
        exact attemptCall_congr st key now hf
      | InvalidExhausted e1 => simp only [get_repository_info, hg]
  · intro st key resp now repo hinv hres
    cases hg : st.cache.get key now with
    | some e =>
      cases e with
      | Valid data =>
        simp only [get_repository_info, hg] at hres
        obtain ⟨t0, hraw⟩ := GHCache.get_some_findRaw hg
        injection hres with h'
        rw [← h']
        exact hinv key data t0 hraw
      | Invalid e1 n =>
        simp only [get_repository_info, hg] at hres
        unfold attemptCall at hres
        by_cases hperm : st.breaker.is_call_permitted
        · rw [if_neg (by simp [hperm])] at hres
          cases hfr : fetch_repository_info resp with
          | ok r =>
            rw [hfr] at hres
            dsimp only at hres
            injection hres with h'
            rw [← h']
            exact hfetch resp r hfr
          | error e2 =>
            rw [hfr] at hres
            simp only at hres
            exact Except.noConfusion hres
        · rw [if_pos (by simp [Bool.not_eq_true] at hperm ⊢; exact hperm)] at hres
          exact Except.noConfusion hres
      | InvalidExhausted e1 =>
        simp only [get_repository_info, hg] at hres
        exact Except.noConfusion hres
    | none =>
      simp only [get_repository_info, hg] at hres
      unfold attemptCall at hres
      by_cases hperm : st.breaker.is_call_permitted
      · rw [if_neg (by simp [hperm])] at hres
        cases hfr : fetch_repository_info resp with
        | ok r =>
          rw [hfr] at hres
          dsimp only at hres
          injection hres with h'
          rw [← h']
          exact hfetch resp r hfr
        | error e2 =>
          rw [hfr] at hres
          simp only at hres
          exact Except.noConfusion hres
      · rw [if_pos (by simp [Bool.not_eq_true] at hperm ⊢; exact hperm)] at hres
        exact Except.noConfusion hres
  · intro st key resp now hinv
    have hattempt : cacheNoPrivate (attemptCall st key resp now).state.cache := by
      unfold attemptCall
      by_cases hperm : st.breaker.is_call_permitted
      · rw [if_neg (by simp [hperm])]
        cases hfr : fetch_repository_info resp with
        | ok r =>
          dsimp only
          intro k d t0 h
          unfold GHCache.insert GHCache.findRaw at h
          by_cases hk : key = k
          · rw [if_pos hk] at h
            cases h
            exact hfetch resp r hfr
          · rw [if_neg hk] at h
            exact hinv k d t0 h
        | error e2 =>
          dsimp only
          intro k d t0 h
          exact hinv k d t0 (handle_github_error_no_valid h)
      · rw [if_pos (by simp [Bool.not_eq_true] at hperm ⊢; exact hperm)]
        exact hinv
    cases hg : st.cache.get key now with
    | none => simp only [get_repository_info, hg]; exact hattempt
    | some e =>
      cases e with
      | Valid data => simp only [get_repository_info, hg]; exact hinv
      | Invalid e1 n => simp only [get_repository_info, hg]; exact hattempt
      | InvalidExhausted e1 => simp only [get_repository_info, hg]; exact hinv

/-- Witness for C6: a private repository response drives the fresh client
to exactly the state a 404 would, and a call on the empty cache never hands
back a private repository. -/
theorem c6_witness :
    privRepo.is_private = true ∧
    get_repository_info .initial "o/r" (.success privRepo) 0 =
      get_repository_info .initial "o/r" (.httpError 404) 0 ∧
    pubRepo.is_private = false :=
  ⟨rfl,
    c6_private_treated_as_not_found.2.1 .initial "o/r" privRepo 0 rfl,
    c6_private_treated_as_not_found.2.2.1 .initial "o/r" (.success pubRepo) 0
      pubRepo (fun _ _ _ h => nomatch h) (by decide)⟩

end Glim
